import Mathlib

/-!
Verification development for the similytics repository.

The repository enriches an article record with a similarity annotation,
persists the result through an unreliable storage channel, and reports a
structural diff against the previous run's output.  This file gives a
shallow embedding of the code in `src/main.ts`, the channel simulators in
`src/prismicLib/readFileFromCloud.ts` and `writeFileToCloud.ts`, and the
second program variant, together with theorems about them.

Randomness (`Math.random()`) is modelled by explicit rational parameters in
`[0, 1)`, one per draw; asynchronous effects (throwing, the 60-second stall,
persisted bytes) are modelled by explicit effect records; process behaviour
of the orchestrator is modelled by a total function from the settled results
of the already-retried operations to a run outcome.
-/

namespace Similytics

/-- Article structure without the similarTo field (interface `Article`). -/
structure Article where
  title : String
  summary : String
  category : String
  takeaways : List String
  deriving DecidableEq, Repr

/-- Nested `similarTo` object of an enriched article. -/
structure SimilarTo where
  title : Option String
  reason : String
  deriving DecidableEq, Repr

/-- Complete enriched article structure (interface `EnrichedArticle extends Article`). -/
structure EnrichedArticle extends Article where
  similarTo : SimilarTo
  deriving DecidableEq, Repr

/-- OpenAI response shape for article similarity (interface `SimilarityAnalysis`). -/
structure SimilarityAnalysis where
  title : Option String
  reason : String
  deriving DecidableEq, Repr

/-- Single before/after pair stored under a key of the diff's changed map. -/
structure Change (α : Type) where
  before : α
  after : α
  deriving DecidableEq, Repr

/-- Nested record of changed `similarTo` subfields (local `similarToChanges`
in `generateDiff`); a subfield is present exactly when the code inserted it. -/
structure SimilarToChanges where
  title : Option (Change (Option String))
  reason : Option (Change String)
  deriving DecidableEq, Repr

/-- Changed map of a diff.  The source uses a string-keyed record, but the
code only ever inserts the five fixed keys below, so the map is embedded as
a record of optional entries: `none` means the key is absent. -/
structure ChangedMap where
  title : Option (Change String)
  summary : Option (Change String)
  category : Option (Change String)
  takeaways : Option (Change (List String))
  similarTo : Option SimilarToChanges
  deriving DecidableEq, Repr

/-- Diff structure showing changes between two outputs (interface `Diff`). -/
structure Diff where
  changed : ChangedMap
  deriving DecidableEq, Repr

/-- Empty diff `{changed: {}}`: no key present in the changed map. -/
def emptyDiff : Diff :=
  { changed := { title := none, summary := none, category := none,
                 takeaways := none, similarTo := none } }

/-- Embedding of the JavaScript check
`oldTakeaways.every((val, idx) => val === newTakeaways[idx])`: it walks the
first list positionally and compares with the second list at the same index;
an index past the end of the second list compares a string against
`undefined`, which is `false`. -/
def everyEq : List String → List String → Bool
  | [], _ => true
  | _ :: _, [] => false
  | v :: vs, w :: ws => v == w && everyEq vs ws

/-- Condition under which `generateDiff` records the `takeaways` field:
`oldTakeaways.length !== newTakeaways.length || !oldTakeaways.every(...)`. -/
def takeawaysChanged (oldTakeaways newTakeaways : List String) : Bool :=
  oldTakeaways.length != newTakeaways.length || !(everyEq oldTakeaways newTakeaways)

/-- Generates a diff between two enriched articles (`generateDiff` in
`src/main.ts`).  Each key of the changed record is inserted exactly when the
corresponding source `if` fires; `similarTo` is inserted exactly when
`Object.keys(similarToChanges).length > 0`, i.e. when at least one subfield
was inserted. -/
def generateDiff (oldOutput newOutput : EnrichedArticle) : Diff :=
  let titleChange :=
    if oldOutput.title ≠ newOutput.title then
      some { before := oldOutput.title, after := newOutput.title } else none
  let summaryChange :=
    if oldOutput.summary ≠ newOutput.summary then
      some { before := oldOutput.summary, after := newOutput.summary } else none
  let categoryChange :=
    if oldOutput.category ≠ newOutput.category then
      some { before := oldOutput.category, after := newOutput.category } else none
  let takeawaysChange :=
    if takeawaysChanged oldOutput.takeaways newOutput.takeaways then
      some { before := oldOutput.takeaways, after := newOutput.takeaways } else none
  let similarTitleChange :=
    if oldOutput.similarTo.title ≠ newOutput.similarTo.title then
      some { before := oldOutput.similarTo.title, after := newOutput.similarTo.title }
    else none
  let similarReasonChange :=
    if oldOutput.similarTo.reason ≠ newOutput.similarTo.reason then
      some { before := oldOutput.similarTo.reason, after := newOutput.similarTo.reason }
    else none
  let similarToChange :=
    if similarTitleChange.isSome || similarReasonChange.isSome then
      some { title := similarTitleChange, reason := similarReasonChange }
    else none
  { changed := { title := titleChange, summary := summaryChange,
                 category := categoryChange, takeaways := takeawaysChange,
                 similarTo := similarToChange } }

/-- Generates a diff between two enriched articles, second program variant
(`generateDiff` in the unnamed source file `part_001`).  That variant takes
its arguments as a destructured object `{output, newOutput}` and binds the
compared fields to local names before the comparisons; the comparisons and
insertions are the same. -/
def generateDiffV2 (output newOutput : EnrichedArticle) : Diff :=
  let titleChange :=
    if output.title ≠ newOutput.title then
      some { before := output.title, after := newOutput.title } else none
  let summaryChange :=
    if output.summary ≠ newOutput.summary then
      some { before := output.summary, after := newOutput.summary } else none
  let categoryChange :=
    if output.category ≠ newOutput.category then
      some { before := output.category, after := newOutput.category } else none
  let takeaways := output.takeaways
  let newTakeaways := newOutput.takeaways
  let takeawaysChange :=
    if takeawaysChanged takeaways newTakeaways then
      some { before := takeaways, after := newTakeaways } else none
  let stTitle := output.similarTo.title
  let stReason := output.similarTo.reason
  let newTitle := newOutput.similarTo.title
  let newReason := newOutput.similarTo.reason
  let similarTitleChange :=
    if stTitle ≠ newTitle then some { before := stTitle, after := newTitle } else none
  let similarReasonChange :=
    if stReason ≠ newReason then some { before := stReason, after := newReason } else none
  let similarToChange :=
    if similarTitleChange.isSome || similarReasonChange.isSome then
      some { title := similarTitleChange, reason := similarReasonChange }
    else none
  { changed := { title := titleChange, summary := summaryChange,
                 category := categoryChange, takeaways := takeawaysChange,
                 similarTo := similarToChange } }

/-! ## Unreliable channel (`readFileFromCloud.ts`, `writeFileToCloud.ts`) -/

/-- Spec outcome classification of one channel call by its dice value:
hard failure for dice in `[0, 0.1)`, stall for `[0.1, 0.2)`, truncation for
`[0.2, 0.3)`, success for `[0.3, 1)`. -/
inductive ChannelOutcome where
  | hardFailure
  | stall
  | truncation
  | success
  deriving DecidableEq, Repr

/-- Band of the dice value `Math.random()` drawn once per channel call. -/
def classifyDice (dice : ℚ) : ChannelOutcome :=
  if dice < 1 / 10 then ChannelOutcome.hardFailure
  else if dice < 2 / 10 then ChannelOutcome.stall
  else if dice < 3 / 10 then ChannelOutcome.truncation
  else ChannelOutcome.success

/-- Truncation cut point `Math.floor(length * (0.5 + Math.random() * 0.4))`,
with `r` the value of the second `Math.random()` draw. -/
def cutLen (len : Nat) (r : ℚ) : Nat :=
  Int.toNat ⌊(len : ℚ) * (1 / 2 + r * (2 / 5))⌋

/-- Observable effect of one `readFileFromCloud` call: whether it threw,
whether it waited the 60-second stall, and the returned bytes (none when it
threw). -/
structure ReadEffect where
  threw : Bool
  stalled : Bool
  result : Option (List Char)
  deriving DecidableEq, Repr

/-- Embedding of `readFileFromCloud(path)` with the file's true content
`raw`, the per-call dice draw, and the truncation draw `r`.  The source
throws for `dice < 0.1`, stalls 60 seconds for `dice < 0.2`, and returns
`raw.slice(0, cutAt)` for `dice < 0.3` — note the truncating branch also
covers the stall band. -/
def readFileFromCloud (dice r : ℚ) (raw : List Char) : ReadEffect :=
  if dice < 1 / 10 then { threw := true, stalled := false, result := none }
  else if dice < 3 / 10 then
    { threw := false, stalled := decide (dice < 2 / 10),
      result := some (raw.take (cutLen raw.length r)) }
  else { threw := false, stalled := decide (dice < 2 / 10), result := some raw }

/-- Observable effect of one `writeFileToCloud` call: whether it threw,
whether it stalled, and the bytes actually persisted (none when it threw). -/
structure WriteEffect where
  threw : Bool
  stalled : Bool
  persisted : Option (List Char)
  deriving DecidableEq, Repr

/-- Embedding of `writeFileToCloud(file, data)` from the unnamed source file
`part_000`, with the same dice bands as the read side: throw for
`dice < 0.1`, stall for `dice < 0.2`, persist `data.slice(0, cutAt)` for
`dice < 0.3`, otherwise persist `data` exactly. -/
def writeFileToCloud (dice r : ℚ) (data : List Char) : WriteEffect :=
  if dice < 1 / 10 then { threw := true, stalled := false, persisted := none }
  else if dice < 3 / 10 then
    { threw := false, stalled := decide (dice < 2 / 10),
      persisted := some (data.take (cutLen data.length r)) }
  else { threw := false, stalled := decide (dice < 2 / 10), persisted := some data }

/-! ## Retry orchestrator (`retryWithBackoff` in `src/main.ts`) -/

/-- Trace of one `retryWithBackoff` call: the final result, how many times
the wrapped operation was invoked, and the list of backoff sleeps performed
(in milliseconds), in order. -/
structure RetryTrace (T : Type) where
  result : Except String T
  invocations : Nat
  delays : List ℚ
  deriving Repr

/-- One loop iteration body up to the catch: run the operation, then apply
the optional validator; a validator rejection becomes the thrown error
`Invalid or partial data received`.  The operation is indexed by the
zero-based attempt counter so deterministic failure schedules can be
expressed. -/
def attemptOnce {T : Type} (op : Nat → Except String T)
    (validator : Option (T → Bool)) (attempt : Nat) : Except String T :=
  match op attempt with
  | Except.error e => Except.error e
  | Except.ok result =>
    match validator with
    | some v =>
      if v result then Except.ok result
      else Except.error ("Invalid or partial data received")
    | none => Except.ok result

/-- Aggregate error thrown after the loop:
`Operation failed after maxRetries attempts: lastError?.message` (an absent
last error prints as `undefined`, as the optional chaining does). -/
def exhaustedMsg (maxRetries : Nat) (lastError : Option String) : String :=
  "Operation failed after " ++ toString maxRetries ++ " attempts: " ++
    lastError.getD ("undefined")

/-- Loop of `retryWithBackoff`, with `fuel` the number of loop iterations
still allowed (`maxRetries - attempt`).  On a failure with `fuel = 1` the
attempt was the last one: the loop breaks and the aggregate error is thrown;
otherwise the backoff sleep `baseDelay * 2 ^ attempt + rand attempt * 1000`
is recorded and the loop continues. -/
def retryAux {T : Type} (op : Nat → Except String T) (validator : Option (T → Bool))
    (rand : Nat → ℚ) (baseDelay : ℚ) (maxRetries : Nat) :
    Nat → Nat → Option String → RetryTrace T
  | _, 0, lastError =>
    { result := Except.error (exhaustedMsg maxRetries lastError),
      invocations := 0, delays := [] }
  | attempt, fuel + 1, _ =>
    match attemptOnce op validator attempt with
    | Except.ok v => { result := Except.ok v, invocations := 1, delays := [] }
    | Except.error e =>
      if fuel = 0 then
        { result := Except.error (exhaustedMsg maxRetries (some e)),
          invocations := 1, delays := [] }
      else
        let rest := retryAux op validator rand baseDelay maxRetries
          (attempt + 1) fuel (some e)
        { result := rest.result, invocations := rest.invocations + 1,
          delays := (baseDelay * 2 ^ attempt + rand attempt * 1000) :: rest.delays }

/-- Retries an async operation with exponential backoff (`retryWithBackoff`).
`rand` supplies the jitter draw `Math.random()` of each attempt. -/
def retryWithBackoff {T : Type} (op : Nat → Except String T) (maxRetries : Nat)
    (baseDelay : ℚ) (validator : Option (T → Bool)) (rand : Nat → ℚ) : RetryTrace T :=
  retryAux op validator rand baseDelay maxRetries 0 maxRetries none

/-- Call of `retryWithBackoff` with the defaulted parameters of its source
signature: `maxRetries = 5`, `baseDelay = 1000`. -/
def retryWithBackoffDefault {T : Type} (op : Nat → Except String T)
    (validator : Option (T → Bool)) (rand : Nat → ℚ) : RetryTrace T :=
  retryWithBackoff op 5 1000 validator rand

/-! ## Enrichment orchestrator (`main` in `src/main.ts`) -/

/-- Settled results of the (already retried) operations one run performs, in
program order, plus which of the two final writes settles first in time (the
timing of `Promise.all`'s first rejection). -/
structure RunEnv where
  readArticle : Except String Article
  readPreviousArticles : Except String (List Article)
  findSimilar : Except String SimilarityAnalysis
  readPriorOutput : Except String EnrichedArticle
  writeOutput : Except String Unit
  writeDiff : Except String Unit
  outputSettlesFirst : Bool

/-- Terminal state of one run: normal completion with the produced output
and diff, or `process.exit(code)` after the outer catch logged `err`. -/
inductive RunResult where
  | success (output : EnrichedArticle) (diff : Diff)
  | failed (exitCode : Nat) (err : String)
  deriving Repr

/-- Run result together with whether each of the two final writes was
started (both are started by the `Promise.all([...])` expression whenever
control reaches it, whatever either write's own outcome). -/
structure RunOutcome where
  result : RunResult
  outputWriteStarted : Bool
  diffWriteStarted : Bool
  deriving Repr

/-- Construction of `enrichedOutput`: the article spread together with the
similarTo pair taken from the similarity analysis. -/
def enrichFromAnalysis (article : Article) (analysis : SimilarityAnalysis) :
    EnrichedArticle :=
  { toArticle := article,
    similarTo := { title := analysis.title, reason := analysis.reason } }

/-- Settling of `Promise.all([o, d])`: fulfilled when both fulfil; otherwise
rejected with the first rejection in time — when both reject, that is the
output write's error if it settled first, else the diff write's. -/
def promiseAllPair (outputFirst : Bool) (o d : Except String Unit) :
    Except String Unit :=
  match o, d with
  | Except.ok _, Except.ok _ => Except.ok ()
  | Except.error e, Except.ok _ => Except.error e
  | Except.ok _, Except.error e => Except.error e
  | Except.error eo, Except.error ed => Except.error (if outputFirst then eo else ed)

/-- Embedding of `main()`.  Each read/similarity step propagates its error
to the outer catch, which exits with code 1.  The inner try around the
prior-output read swallows any error there and keeps the initial empty
diff.  The final writes are started together; the run succeeds only when
`Promise.all` fulfils. -/
def main (env : RunEnv) : RunOutcome :=
  match env.readArticle with
  | Except.error e =>
    { result := RunResult.failed 1 e, outputWriteStarted := false,
      diffWriteStarted := false }
  | Except.ok article =>
    match env.readPreviousArticles with
    | Except.error e =>
      { result := RunResult.failed 1 e, outputWriteStarted := false,
        diffWriteStarted := false }
    | Except.ok _previousArticles =>
      match env.findSimilar with
      | Except.error e =>
        { result := RunResult.failed 1 e, outputWriteStarted := false,
          diffWriteStarted := false }
      | Except.ok analysis =>
        let enrichedOutput := enrichFromAnalysis article analysis
        let diff :=
          match env.readPriorOutput with
          | Except.ok existingOutput => generateDiff existingOutput enrichedOutput
          | Except.error _ => emptyDiff
        match promiseAllPair env.outputSettlesFirst env.writeOutput env.writeDiff with
        | Except.ok _ =>
          { result := RunResult.success enrichedOutput diff,
            outputWriteStarted := true, diffWriteStarted := true }
        | Except.error e =>
          { result := RunResult.failed 1 e, outputWriteStarted := true,
            diffWriteStarted := true }

/-! ## Helper lemmas: diff engine -/

theorem everyEq_self (a : List String) : everyEq a a = true := by
  induction a with
  | nil => rfl
  | cons x xs ih => simp [everyEq, ih]

theorem everyEq_eq_of_length (a b : List String) (hl : a.length = b.length)
    (h : everyEq a b = true) : a = b := by
  induction a generalizing b with
  | nil =>
    cases b with
    | nil => rfl
    | cons y ys => simp at hl
  | cons x xs ih =>
    cases b with
    | nil => simp at hl
    | cons y ys =>
      simp only [everyEq, Bool.and_eq_true, beq_iff_eq] at h
      obtain ⟨h1, h2⟩ := h
      simp only [List.length_cons, Nat.add_right_cancel_iff] at hl
      rw [h1, ih ys hl h2]

theorem takeawaysChanged_iff (a b : List String) :
    takeawaysChanged a b = true ↔ a ≠ b := by
  constructor
  · intro h heq
    subst heq
    simp [takeawaysChanged, everyEq_self] at h
  · intro hne
    by_cases hl : a.length = b.length
    · have hev : everyEq a b = false := by
        cases hev2 : everyEq a b with
        | false => rfl
        | true => exact absurd (everyEq_eq_of_length a b hl hev2) hne
      simp [takeawaysChanged, hev]
    · simp [takeawaysChanged, hl]

theorem takeawaysChanged_self (a : List String) : takeawaysChanged a a = false := by
  simp [takeawaysChanged, everyEq_self]

theorem SimilarTo.ne_iff (s t : SimilarTo) :
    s ≠ t ↔ (s.title ≠ t.title ∨ s.reason ≠ t.reason) := by
  cases s with
  | mk st sr =>
    cases t with
    | mk tt tr => simp only [ne_eq, SimilarTo.mk.injEq, not_and_or]

theorem generateDiff_changed_title (a b : EnrichedArticle) :
    (generateDiff a b).changed.title =
      if a.title ≠ b.title then some { before := a.title, after := b.title }
      else none := rfl

theorem generateDiff_changed_summary (a b : EnrichedArticle) :
    (generateDiff a b).changed.summary =
      if a.summary ≠ b.summary then some { before := a.summary, after := b.summary }
      else none := rfl

theorem generateDiff_changed_category (a b : EnrichedArticle) :
    (generateDiff a b).changed.category =
      if a.category ≠ b.category then
        some { before := a.category, after := b.category }
      else none := rfl

theorem generateDiff_changed_takeaways (a b : EnrichedArticle) :
    (generateDiff a b).changed.takeaways =
      if takeawaysChanged a.takeaways b.takeaways then
        some { before := a.takeaways, after := b.takeaways }
      else none := rfl

theorem generateDiff_changed_similarTo (a b : EnrichedArticle) :
    (generateDiff a b).changed.similarTo =
      (let tc :=
        if a.similarTo.title ≠ b.similarTo.title then
          some { before := a.similarTo.title, after := b.similarTo.title }
        else none
      let rc :=
        if a.similarTo.reason ≠ b.similarTo.reason then
          some { before := a.similarTo.reason, after := b.similarTo.reason }
        else none
      if tc.isSome || rc.isSome then some { title := tc, reason := rc }
      else none) := rfl

/-! ## Claim theorems: diff engine -/

/-- C5: a top-level field (or a similarTo subfield) appears in the diff's
changed mapping iff its before and after values are not equal; unchanged
fields are omitted entirely, the similarTo key is omitted when both
subfields are equal, no entry ever has before equal to after, and
diff(a, a) is the empty diff. -/
theorem claim_C5_diff_sparse (a b : EnrichedArticle) :
    ((generateDiff a b).changed.title.isSome ↔ a.title ≠ b.title) ∧
    ((generateDiff a b).changed.summary.isSome ↔ a.summary ≠ b.summary) ∧
    ((generateDiff a b).changed.category.isSome ↔ a.category ≠ b.category) ∧
    ((generateDiff a b).changed.takeaways.isSome ↔ a.takeaways ≠ b.takeaways) ∧
    ((generateDiff a b).changed.similarTo.isSome ↔ a.similarTo ≠ b.similarTo) ∧
    (∀ c, (generateDiff a b).changed.title = some c → c.before ≠ c.after) ∧
    (∀ c, (generateDiff a b).changed.summary = some c → c.before ≠ c.after) ∧
    (∀ c, (generateDiff a b).changed.category = some c → c.before ≠ c.after) ∧
    (∀ c, (generateDiff a b).changed.takeaways = some c → c.before ≠ c.after) ∧
    (∀ sc, (generateDiff a b).changed.similarTo = some sc →
      ((sc.title.isSome ↔ a.similarTo.title ≠ b.similarTo.title) ∧
       (sc.reason.isSome ↔ a.similarTo.reason ≠ b.similarTo.reason) ∧
       (∀ c, sc.title = some c → c.before ≠ c.after) ∧
       (∀ c, sc.reason = some c → c.before ≠ c.after))) ∧
    generateDiff a a = emptyDiff := by
  refine ⟨?_, ?_, ?_, ?_, ?_, ?_, ?_, ?_, ?_, ?_, ?_⟩
  · rw [generateDiff_changed_title]
    by_cases h : a.title = b.title <;> simp [h]
  · rw [generateDiff_changed_summary]
    by_cases h : a.summary = b.summary <;> simp [h]
  · rw [generateDiff_changed_category]
    by_cases h : a.category = b.category <;> simp [h]
  · rw [generateDiff_changed_takeaways]
    by_cases h : a.takeaways = b.takeaways <;>
      simp [h, takeawaysChanged_self, takeawaysChanged_iff]
  · rw [generateDiff_changed_similarTo, SimilarTo.ne_iff]
    by_cases ht : a.similarTo.title = b.similarTo.title <;>
      by_cases hr : a.similarTo.reason = b.similarTo.reason <;> simp [ht, hr]
  · intro c hc
    rw [generateDiff_changed_title] at hc
    by_cases h : a.title = b.title
    · simp [h] at hc
    · simp only [h, ne_eq, not_false_eq_true, if_true, Option.some.injEq] at hc
      rw [← hc]
      exact h
  · intro c hc
    rw [generateDiff_changed_summary] at hc
    by_cases h : a.summary = b.summary
    · simp [h] at hc
    · simp only [h, ne_eq, not_false_eq_true, if_true, Option.some.injEq] at hc
      rw [← hc]
      exact h
  · intro c hc
    rw [generateDiff_changed_category] at hc
    by_cases h : a.category = b.category
    · simp [h] at hc
    · simp only [h, ne_eq, not_false_eq_true, if_true, Option.some.injEq] at hc
      rw [← hc]
      exact h
  · intro c hc
    rw [generateDiff_changed_takeaways] at hc
    by_cases h : a.takeaways = b.takeaways
    · simp [h, takeawaysChanged_self] at hc
    · rw [if_pos (by simpa [takeawaysChanged_iff] using h)] at hc
      rw [Option.some.injEq] at hc
      rw [← hc]
      exact h
  · intro sc hsc
    rw [generateDiff_changed_similarTo] at hsc
    by_cases ht : a.similarTo.title = b.similarTo.title <;>
      by_cases hr : a.similarTo.reason = b.similarTo.reason
    · simp [ht, hr] at hsc
    · simp only [ht, hr, ne_eq, not_true_eq_false, if_false, not_false_eq_true,
        if_true, Option.isSome_some, Option.isSome_none, Bool.false_or,
        Option.some.injEq] at hsc
      rw [← hsc]
      refine ⟨by simp [ht], by simp [hr], by simp, ?_⟩
      intro c hc
      rw [Option.some.injEq] at hc
      rw [← hc]
      exact hr
    · simp only [ht, hr, ne_eq, not_true_eq_false, if_false, not_false_eq_true,
        if_true, Option.isSome_some, Option.isSome_none, Bool.or_false,
        Option.some.injEq] at hsc
      rw [← hsc]
      refine ⟨by simp [ht], by simp [hr], ?_, by simp⟩
      intro c hc
      rw [Option.some.injEq] at hc
      rw [← hc]
      exact ht
    · simp only [ht, hr, ne_eq, not_false_eq_true, if_true, Option.isSome_some,
        Bool.or_self, Option.some.injEq] at hsc
      rw [← hsc]
      refine ⟨by simp [ht], by simp [hr], ?_, ?_⟩
      · intro c hc
        rw [Option.some.injEq] at hc
        rw [← hc]
        exact ht
      · intro c hc
        rw [Option.some.injEq] at hc
        rw [← hc]
        exact hr
  · simp [generateDiff, emptyDiff, takeawaysChanged_self]

/-- C5 witness: the properties evaluated at a concrete pair of articles. -/
theorem claim_C5_witness :
    let a : EnrichedArticle :=
      { title := "T", summary := "S", category := "C", takeaways := ["x"],
        similarTo := { title := none, reason := "R" } }
    let b : EnrichedArticle :=
      { title := "T", summary := "S2", category := "C", takeaways := ["x"],
        similarTo := { title := some "P", reason := "R" } }
    ((generateDiff a b).changed.title.isSome ↔ a.title ≠ b.title) ∧
    ((generateDiff a b).changed.summary.isSome ↔ a.summary ≠ b.summary) ∧
    ((generateDiff a b).changed.category.isSome ↔ a.category ≠ b.category) ∧
    ((generateDiff a b).changed.takeaways.isSome ↔ a.takeaways ≠ b.takeaways) ∧
    ((generateDiff a b).changed.similarTo.isSome ↔ a.similarTo ≠ b.similarTo) ∧
    (∀ c, (generateDiff a b).changed.title = some c → c.before ≠ c.after) ∧
    (∀ c, (generateDiff a b).changed.summary = some c → c.before ≠ c.after) ∧
    (∀ c, (generateDiff a b).changed.category = some c → c.before ≠ c.after) ∧
    (∀ c, (generateDiff a b).changed.takeaways = some c → c.before ≠ c.after) ∧
    (∀ sc, (generateDiff a b).changed.similarTo = some sc →
      ((sc.title.isSome ↔ a.similarTo.title ≠ b.similarTo.title) ∧
       (sc.reason.isSome ↔ a.similarTo.reason ≠ b.similarTo.reason) ∧
       (∀ c, sc.title = some c → c.before ≠ c.after) ∧
       (∀ c, sc.reason = some c → c.before ≠ c.after))) ∧
    generateDiff a a = emptyDiff :=
  claim_C5_diff_sparse _ _

/-- C8: takeaways sequences containing the same elements in a different
order (same multiset, different sequence) are reported as changed, as a
single opaque field-level before/after entry. -/
theorem claim_C8_takeaways_order (a b : EnrichedArticle)
    (hperm : List.Perm a.takeaways b.takeaways)
    (hne : a.takeaways ≠ b.takeaways) :
    (generateDiff a b).changed.takeaways =
      some { before := a.takeaways, after := b.takeaways } := by
  rw [generateDiff_changed_takeaways, if_pos]
  simpa [takeawaysChanged_iff] using hne

/-- C8 witness: a concrete pair whose takeaways are a nontrivial
permutation of each other. -/
theorem claim_C8_witness :
    (generateDiff
      { title := "T", summary := "S", category := "C", takeaways := ["x", "y"],
        similarTo := { title := none, reason := "R" } }
      { title := "T", summary := "S", category := "C", takeaways := ["y", "x"],
        similarTo := { title := none, reason := "R" } }).changed.takeaways =
      some { before := ["x", "y"], after := ["y", "x"] } :=
  claim_C8_takeaways_order _ _ (List.Perm.swap "y" "x" []) (by decide)

/-- C10: the two program variants implement the same diff engine: on every
pair of enriched articles the diff of `src/main.ts` and the diff of the
unnamed variant agree. -/
theorem claim_C10_variants_agree (a b : EnrichedArticle) :
    generateDiff a b = generateDiffV2 a b := rfl

/-! ## Helper lemmas: unreliable channel -/

theorem cutLen_lt (len : Nat) (r : ℚ) (hlen : 1 ≤ len)
    (hr1 : r < 1) : cutLen len r < len := by
  have hf1 : (1 : ℚ) / 2 + r * (2 / 5) < 1 := by
    have := mul_lt_mul_of_pos_right hr1 (by norm_num : (0 : ℚ) < 2 / 5)
    linarith
  have hlpos : (0 : ℚ) < (len : ℚ) := by exact_mod_cast Nat.lt_of_lt_of_le Nat.zero_lt_one hlen
  have hx : (len : ℚ) * (1 / 2 + r * (2 / 5)) < (len : ℚ) := by
    have := mul_lt_mul_of_pos_left hf1 hlpos
    linarith
  have hfloor : ⌊(len : ℚ) * (1 / 2 + r * (2 / 5))⌋ < (len : ℤ) := by
    rw [Int.floor_lt]
    push_cast
    exact hx
  unfold cutLen
  omega

theorem take_ne (l : List Char) (n : Nat) (h : n < l.length) : l.take n ≠ l := by
  intro he
  have hlen := congrArg List.length he
  simp only [List.length_take] at hlen
  omega

theorem classifyDice_eq_hardFailure (dice : ℚ) :
    classifyDice dice = ChannelOutcome.hardFailure ↔ dice < 1 / 10 := by
  unfold classifyDice
  split_ifs with h1 h2 h3 <;> simp <;> linarith

theorem classifyDice_eq_stall (dice : ℚ) :
    classifyDice dice = ChannelOutcome.stall ↔ (1 / 10 ≤ dice ∧ dice < 2 / 10) := by
  unfold classifyDice
  split_ifs with h1 h2 h3 <;> simp
  · intro ha
    linarith
  · exact ⟨by linarith, h2⟩
  · intro ha
    linarith
  · intro ha
    linarith

theorem classifyDice_eq_truncation (dice : ℚ) :
    classifyDice dice = ChannelOutcome.truncation ↔
      (2 / 10 ≤ dice ∧ dice < 3 / 10) := by
  unfold classifyDice
  split_ifs with h1 h2 h3 <;> simp
  · intro ha
    linarith
  · intro ha
    linarith
  · exact ⟨by linarith, h3⟩
  · intro ha
    linarith

theorem classifyDice_eq_success (dice : ℚ) :
    classifyDice dice = ChannelOutcome.success ↔ 3 / 10 ≤ dice := by
  unfold classifyDice
  split_ifs with h1 h2 h3 <;> simp <;> linarith

theorem readFileFromCloud_eq_of_fail (dice r : ℚ) (raw : List Char)
    (h : dice < 1 / 10) :
    readFileFromCloud dice r raw =
      { threw := true, stalled := false, result := none } := by
  unfold readFileFromCloud
  rw [if_pos h]

theorem readFileFromCloud_eq_of_stall (dice r : ℚ) (raw : List Char)
    (h1 : 1 / 10 ≤ dice) (h2 : dice < 2 / 10) :
    readFileFromCloud dice r raw =
      { threw := false, stalled := true,
        result := some (raw.take (cutLen raw.length r)) } := by
  have hn1 : ¬dice < 1 / 10 := not_lt.mpr h1
  have h3 : dice < 3 / 10 := by linarith
  unfold readFileFromCloud
  rw [if_neg hn1, if_pos h3, decide_eq_true h2]

theorem readFileFromCloud_eq_of_trunc (dice r : ℚ) (raw : List Char)
    (h1 : 2 / 10 ≤ dice) (h2 : dice < 3 / 10) :
    readFileFromCloud dice r raw =
      { threw := false, stalled := false,
        result := some (raw.take (cutLen raw.length r)) } := by
  have hn1 : ¬dice < 1 / 10 := not_lt.mpr (by linarith)
  have hn2 : ¬dice < 2 / 10 := not_lt.mpr h1
  unfold readFileFromCloud
  rw [if_neg hn1, if_pos h2, decide_eq_false hn2]

theorem readFileFromCloud_eq_of_success (dice r : ℚ) (raw : List Char)
    (h : 3 / 10 ≤ dice) :
    readFileFromCloud dice r raw =
      { threw := false, stalled := false, result := some raw } := by
  have hn1 : ¬dice < 1 / 10 := not_lt.mpr (by linarith)
  have hn2 : ¬dice < 2 / 10 := not_lt.mpr (by linarith)
  have hn3 : ¬dice < 3 / 10 := not_lt.mpr h
  unfold readFileFromCloud
  rw [if_neg hn1, if_neg hn3, decide_eq_false hn2]

theorem writeFileToCloud_eq_of_fail (dice r : ℚ) (data : List Char)
    (h : dice < 1 / 10) :
    writeFileToCloud dice r data =
      { threw := true, stalled := false, persisted := none } := by
  unfold writeFileToCloud
  rw [if_pos h]

theorem writeFileToCloud_eq_of_stall (dice r : ℚ) (data : List Char)
    (h1 : 1 / 10 ≤ dice) (h2 : dice < 2 / 10) :
    writeFileToCloud dice r data =
      { threw := false, stalled := true,
        persisted := some (data.take (cutLen data.length r)) } := by
  have hn1 : ¬dice < 1 / 10 := not_lt.mpr h1
  have h3 : dice < 3 / 10 := by linarith
  unfold writeFileToCloud
  rw [if_neg hn1, if_pos h3, decide_eq_true h2]

theorem writeFileToCloud_eq_of_trunc (dice r : ℚ) (data : List Char)
    (h1 : 2 / 10 ≤ dice) (h2 : dice < 3 / 10) :
    writeFileToCloud dice r data =
      { threw := false, stalled := false,
        persisted := some (data.take (cutLen data.length r)) } := by
  have hn1 : ¬dice < 1 / 10 := not_lt.mpr (by linarith)
  have hn2 : ¬dice < 2 / 10 := not_lt.mpr h1
  unfold writeFileToCloud
  rw [if_neg hn1, if_pos h2, decide_eq_false hn2]

theorem writeFileToCloud_eq_of_success (dice r : ℚ) (data : List Char)
    (h : 3 / 10 ≤ dice) :
    writeFileToCloud dice r data =
      { threw := false, stalled := false, persisted := some data } := by
  have hn1 : ¬dice < 1 / 10 := not_lt.mpr (by linarith)
  have hn2 : ¬dice < 2 / 10 := not_lt.mpr (by linarith)
  have hn3 : ¬dice < 3 / 10 := not_lt.mpr h
  unfold writeFileToCloud
  rw [if_neg hn1, if_neg hn3, decide_eq_false hn2]

theorem cutLen_four_zero : cutLen 4 0 = 2 := by
  unfold cutLen
  have h4 : ((4 : Nat) : ℚ) * (1 / 2 + 0 * (2 / 5)) = 2 := by norm_num
  rw [h4]
  have hfl : ⌊(2 : ℚ)⌋ = 2 := by
    rw [Int.floor_eq_iff]
    norm_num
  rw [hfl]
  rfl

theorem cutLen_four_half : cutLen 4 (1 / 2) = 2 := by
  unfold cutLen
  have h4 : ((4 : Nat) : ℚ) * (1 / 2 + (1 / 2) * (2 / 5)) = 14 / 5 := by norm_num
  rw [h4]
  have hfl : ⌊(14 / 5 : ℚ)⌋ = 2 := by
    rw [Int.floor_eq_iff]
    norm_num
  rw [hfl]
  rfl

/-! ## Claim theorems: unreliable channel -/

/-- C1 counterexample: at dice value 3/20 (the stall band) with truncation
draw 0 and a four-byte file, a read both stalls and returns a truncated
strict subrange of the content (and a write persists one), so the stall and
truncation outcomes both occur on one call: the four outcomes are not
mutually exclusive as behaviours. -/
theorem claim_C1_counterexample :
    classifyDice (3 / 20) = ChannelOutcome.stall ∧
    readFileFromCloud (3 / 20) 0 ['a', 'b', 'c', 'd'] =
      { threw := false, stalled := true, result := some ['a', 'b'] } ∧
    (['a', 'b'] : List Char) ≠ ['a', 'b', 'c', 'd'] ∧
    writeFileToCloud (3 / 20) 0 ['a', 'b', 'c', 'd'] =
      { threw := false, stalled := true, persisted := some ['a', 'b'] } := by
  refine ⟨(classifyDice_eq_stall _).mpr ⟨by norm_num, by norm_num⟩, ?_, by decide, ?_⟩
  · rw [readFileFromCloud_eq_of_stall (3 / 20) 0 ['a', 'b', 'c', 'd']
      (by norm_num) (by norm_num)]
    simp [cutLen_four_zero]
  · rw [writeFileToCloud_eq_of_stall (3 / 20) 0 ['a', 'b', 'c', 'd']
      (by norm_num) (by norm_num)]
    simp [cutLen_four_zero]

/-- C1 (amended): each call rolls one fresh dice value that selects exactly
one of four mutually exclusive, jointly exhaustive bands — hard failure on
dice in the interval from 0 to 0.1, stall on 0.1 to 0.2, truncation on 0.2
to 0.3, success on 0.3 to 1 — and the read and write behave according to
the band; however, in the stall band the returned and persisted data are
additionally truncated, since the source's truncation branch also covers
dice values below 0.2, so the stall behaviour composes with truncation
rather than excluding it. -/
theorem claim_C1_amended (dice r : ℚ) (raw data : List Char)
    (hr0 : 0 ≤ r) (hr1 : r < 1)
    (hraw : 1 ≤ raw.length) (hdata : 1 ≤ data.length) :
    ((classifyDice dice = ChannelOutcome.hardFailure) ↔ dice < 1 / 10) ∧
    ((classifyDice dice = ChannelOutcome.stall) ↔
      (1 / 10 ≤ dice ∧ dice < 2 / 10)) ∧
    ((classifyDice dice = ChannelOutcome.truncation) ↔
      (2 / 10 ≤ dice ∧ dice < 3 / 10)) ∧
    ((classifyDice dice = ChannelOutcome.success) ↔ 3 / 10 ≤ dice) ∧
    (classifyDice dice = ChannelOutcome.hardFailure →
      readFileFromCloud dice r raw =
        { threw := true, stalled := false, result := none } ∧
      writeFileToCloud dice r data =
        { threw := true, stalled := false, persisted := none }) ∧
    (classifyDice dice = ChannelOutcome.stall →
      readFileFromCloud dice r raw =
        { threw := false, stalled := true,
          result := some (raw.take (cutLen raw.length r)) } ∧
      raw.take (cutLen raw.length r) ≠ raw ∧
      writeFileToCloud dice r data =
        { threw := false, stalled := true,
          persisted := some (data.take (cutLen data.length r)) } ∧
      data.take (cutLen data.length r) ≠ data) ∧
    (classifyDice dice = ChannelOutcome.truncation →
      readFileFromCloud dice r raw =
        { threw := false, stalled := false,
          result := some (raw.take (cutLen raw.length r)) } ∧
      raw.take (cutLen raw.length r) ≠ raw ∧
      writeFileToCloud dice r data =
        { threw := false, stalled := false,
          persisted := some (data.take (cutLen data.length r)) } ∧
      data.take (cutLen data.length r) ≠ data) ∧
    (classifyDice dice = ChannelOutcome.success →
      readFileFromCloud dice r raw =
        { threw := false, stalled := false, result := some raw } ∧
      writeFileToCloud dice r data =
        { threw := false, stalled := false, persisted := some data }) := by
  have hrne : raw.take (cutLen raw.length r) ≠ raw :=
    take_ne raw _ (cutLen_lt raw.length r hraw hr1)
  have hdne : data.take (cutLen data.length r) ≠ data :=
    take_ne data _ (cutLen_lt data.length r hdata hr1)
  refine ⟨classifyDice_eq_hardFailure dice, classifyDice_eq_stall dice,
    classifyDice_eq_truncation dice, classifyDice_eq_success dice,
    ?_, ?_, ?_, ?_⟩
  · intro h
    have hb := (classifyDice_eq_hardFailure dice).mp h
    exact ⟨readFileFromCloud_eq_of_fail dice r raw hb,
      writeFileToCloud_eq_of_fail dice r data hb⟩
  · intro h
    obtain ⟨hb1, hb2⟩ := (classifyDice_eq_stall dice).mp h
    exact ⟨readFileFromCloud_eq_of_stall dice r raw hb1 hb2, hrne,
      writeFileToCloud_eq_of_stall dice r data hb1 hb2, hdne⟩
  · intro h
    obtain ⟨hb1, hb2⟩ := (classifyDice_eq_truncation dice).mp h
    exact ⟨readFileFromCloud_eq_of_trunc dice r raw hb1 hb2, hrne,
      writeFileToCloud_eq_of_trunc dice r data hb1 hb2, hdne⟩
  · intro h
    have hb := (classifyDice_eq_success dice).mp h
    exact ⟨readFileFromCloud_eq_of_success dice r raw hb,
      writeFileToCloud_eq_of_success dice r data hb⟩

/-- C1 witness: the amended statement evaluated at dice 1/4 (truncation
band), truncation draw 1/2, and a concrete four-byte file. -/
theorem claim_C1_witness :
    ((classifyDice (1 / 4) = ChannelOutcome.hardFailure) ↔ (1 : ℚ) / 4 < 1 / 10) ∧
    ((classifyDice (1 / 4) = ChannelOutcome.stall) ↔
      ((1 : ℚ) / 10 ≤ 1 / 4 ∧ (1 : ℚ) / 4 < 2 / 10)) ∧
    ((classifyDice (1 / 4) = ChannelOutcome.truncation) ↔
      ((2 : ℚ) / 10 ≤ 1 / 4 ∧ (1 : ℚ) / 4 < 3 / 10)) ∧
    ((classifyDice (1 / 4) = ChannelOutcome.success) ↔ (3 : ℚ) / 10 ≤ 1 / 4) ∧
    (classifyDice (1 / 4) = ChannelOutcome.hardFailure →
      readFileFromCloud (1 / 4) (1 / 2) ['a', 'b', 'c', 'd'] =
        { threw := true, stalled := false, result := none } ∧
      writeFileToCloud (1 / 4) (1 / 2) ['p', 'q', 'u', 'v'] =
        { threw := true, stalled := false, persisted := none }) ∧
    (classifyDice (1 / 4) = ChannelOutcome.stall →
      readFileFromCloud (1 / 4) (1 / 2) ['a', 'b', 'c', 'd'] =
        { threw := false, stalled := true,
          result := some (['a', 'b', 'c', 'd'].take (cutLen 4 (1 / 2))) } ∧
      ['a', 'b', 'c', 'd'].take (cutLen 4 (1 / 2)) ≠ ['a', 'b', 'c', 'd'] ∧
      writeFileToCloud (1 / 4) (1 / 2) ['p', 'q', 'u', 'v'] =
        { threw := false, stalled := true,
          persisted := some (['p', 'q', 'u', 'v'].take (cutLen 4 (1 / 2))) } ∧
      ['p', 'q', 'u', 'v'].take (cutLen 4 (1 / 2)) ≠ ['p', 'q', 'u', 'v']) ∧
    (classifyDice (1 / 4) = ChannelOutcome.truncation →
      readFileFromCloud (1 / 4) (1 / 2) ['a', 'b', 'c', 'd'] =
        { threw := false, stalled := false,
          result := some (['a', 'b', 'c', 'd'].take (cutLen 4 (1 / 2))) } ∧
      ['a', 'b', 'c', 'd'].take (cutLen 4 (1 / 2)) ≠ ['a', 'b', 'c', 'd'] ∧
      writeFileToCloud (1 / 4) (1 / 2) ['p', 'q', 'u', 'v'] =
        { threw := false, stalled := false,
          persisted := some (['p', 'q', 'u', 'v'].take (cutLen 4 (1 / 2))) } ∧
      ['p', 'q', 'u', 'v'].take (cutLen 4 (1 / 2)) ≠ ['p', 'q', 'u', 'v']) ∧
    (classifyDice (1 / 4) = ChannelOutcome.success →
      readFileFromCloud (1 / 4) (1 / 2) ['a', 'b', 'c', 'd'] =
        { threw := false, stalled := false, result := some ['a', 'b', 'c', 'd'] } ∧
      writeFileToCloud (1 / 4) (1 / 2) ['p', 'q', 'u', 'v'] =
        { threw := false, stalled := false, persisted := some ['p', 'q', 'u', 'v'] }) :=
  claim_C1_amended (1 / 4) (1 / 2) ['a', 'b', 'c', 'd'] ['p', 'q', 'u', 'v']
    (by norm_num) (by norm_num) (by decide) (by decide)

/-- C9: when the truncation outcome occurs (dice in the 0.2 to 0.3 band), a
read returns the length floor(L * f) front slice of the true content for a
fraction f in the 50 to 90 percent band, and a write persists the
same-fraction front slice of the intended bytes. -/
theorem claim_C9_truncation_fraction (dice r : ℚ) (raw data : List Char)
    (hd1 : 2 / 10 ≤ dice) (hd2 : dice < 3 / 10) (hr0 : 0 ≤ r) (hr1 : r < 1) :
    ∃ f : ℚ, 1 / 2 ≤ f ∧ f < 9 / 10 ∧
      readFileFromCloud dice r raw =
        { threw := false, stalled := false,
          result := some (raw.take (Int.toNat ⌊(raw.length : ℚ) * f⌋)) } ∧
      writeFileToCloud dice r data =
        { threw := false, stalled := false,
          persisted := some (data.take (Int.toNat ⌊(data.length : ℚ) * f⌋)) } := by
  have hmul0 : 0 ≤ r * (2 / 5) := mul_nonneg hr0 (by norm_num)
  have hmul1 : r * (2 / 5) < 2 / 5 := by
    have := mul_lt_mul_of_pos_right hr1 (by norm_num : (0 : ℚ) < 2 / 5)
    linarith
  refine ⟨1 / 2 + r * (2 / 5), by linarith, by linarith, ?_, ?_⟩
  · exact readFileFromCloud_eq_of_trunc dice r raw hd1 hd2
  · exact writeFileToCloud_eq_of_trunc dice r data hd1 hd2

/-- C9 witness: the truncation statement evaluated at dice 1/4, truncation
draw 1/2 (fraction 7/10), and concrete four-byte contents. -/
theorem claim_C9_witness :
    ∃ f : ℚ, 1 / 2 ≤ f ∧ f < 9 / 10 ∧
      readFileFromCloud (1 / 4) (1 / 2) ['a', 'b', 'c', 'd'] =
        { threw := false, stalled := false,
          result := some (['a', 'b', 'c', 'd'].take
            (Int.toNat ⌊((['a', 'b', 'c', 'd'] : List Char).length : ℚ) * f⌋)) } ∧
      writeFileToCloud (1 / 4) (1 / 2) ['p', 'q', 'u', 'v'] =
        { threw := false, stalled := false,
          persisted := some (['p', 'q', 'u', 'v'].take
            (Int.toNat ⌊((['p', 'q', 'u', 'v'] : List Char).length : ℚ) * f⌋)) } :=
  claim_C9_truncation_fraction (1 / 4) (1 / 2) ['a', 'b', 'c', 'd']
    ['p', 'q', 'u', 'v'] (by norm_num) (by norm_num) (by norm_num) (by norm_num)

/-! ## Helper lemmas: retry orchestrator -/

theorem cons_map_range (g : Nat → ℚ) (a k : Nat) :
    g a :: (List.range k).map (fun i => g (a + 1 + i)) =
      (List.range (k + 1)).map (fun i => g (a + i)) := by
  rw [List.range_succ_eq_map, List.map_cons, List.map_map]
  have hfun : ((fun i => g (a + i)) ∘ Nat.succ) = fun i => g (a + 1 + i) := by
    funext i
    simp only [Function.comp_apply]
    congr 1
    omega
  rw [hfun]
  simp

theorem retryAux_inv_pos {T : Type} (op : Nat → Except String T)
    (validator : Option (T → Bool)) (rand : Nat → ℚ) (baseDelay : ℚ)
    (maxRetries : Nat) (a f : Nat) (le : Option String) (hf : 1 ≤ f) :
    1 ≤ (retryAux op validator rand baseDelay maxRetries a f le).invocations := by
  match f, hf with
  | f2 + 1, _ =>
    cases hcase : attemptOnce op validator a with
    | ok v => simp [retryAux, hcase]
    | error e =>
      by_cases hf2 : f2 = 0
      · subst hf2
        simp [retryAux, hcase]
      · simp [retryAux, hcase, hf2]

theorem retryAux_ok {T : Type} (op : Nat → Except String T)
    (validator : Option (T → Bool)) (rand : Nat → ℚ) (baseDelay : ℚ)
    (maxRetries : Nat) (v : T) :
    ∀ (k a f : Nat) (le : Option String), k < f →
      (∀ i, i < k → ∃ e, attemptOnce op validator (a + i) = Except.error e) →
      attemptOnce op validator (a + k) = Except.ok v →
      retryAux op validator rand baseDelay maxRetries a f le =
        { result := Except.ok v, invocations := k + 1,
          delays := (List.range k).map
            (fun i => baseDelay * 2 ^ (a + i) + rand (a + i) * 1000) } := by
  intro k
  induction k with
  | zero =>
    intro a f le hkf hfail hsucc
    match f, hkf with
    | f2 + 1, _ =>
      rw [Nat.add_zero] at hsucc
      simp [retryAux, hsucc]
  | succ k ih =>
    intro a f le hkf hfail hsucc
    match f, hkf with
    | f2 + 1, _ =>
      obtain ⟨e, he⟩ := hfail 0 (by omega)
      rw [Nat.add_zero] at he
      have hf2 : ¬f2 = 0 := by omega
      have hrest := ih (a + 1) f2 (some e) (by omega)
        (fun i hi => by
          obtain ⟨e2, he2⟩ := hfail (i + 1) (by omega)
          refine ⟨e2, ?_⟩
          rw [show a + 1 + i = a + (i + 1) from by omega]
          exact he2)
        (by
          rw [show a + 1 + k = a + (k + 1) from by omega]
          exact hsucc)
      simp only [retryAux, he]
      rw [if_neg hf2]
      simp only [hrest]
      congr 1
      exact cons_map_range (fun i => baseDelay * 2 ^ i + rand i * 1000) a k

theorem retryAux_err {T : Type} (op : Nat → Except String T)
    (validator : Option (T → Bool)) (rand : Nat → ℚ) (baseDelay : ℚ)
    (maxRetries : Nat) (errf : Nat → String)
    (herr : ∀ i, attemptOnce op validator i = Except.error (errf i)) :
    ∀ (f a : Nat) (le : Option String), 1 ≤ f →
      retryAux op validator rand baseDelay maxRetries a f le =
        { result := Except.error (exhaustedMsg maxRetries (some (errf (a + f - 1)))),
          invocations := f,
          delays := (List.range (f - 1)).map
            (fun i => baseDelay * 2 ^ (a + i) + rand (a + i) * 1000) } := by
  intro f
  induction f with
  | zero =>
    intro a le h
    omega
  | succ f2 ih =>
    intro a le _
    by_cases hf2 : f2 = 0
    · subst hf2
      simp [retryAux, herr a]
    · have hrest := ih (a + 1) (some (errf a)) (by omega)
      simp only [retryAux, herr a]
      rw [if_neg hf2]
      simp only [hrest]
      congr 1
      · rw [show a + 1 + f2 - 1 = a + (f2 + 1) - 1 from by omega]
      · rw [show f2 + 1 - 1 = (f2 - 1) + 1 from by omega]
        exact cons_map_range (fun i => baseDelay * 2 ^ i + rand i * 1000) a (f2 - 1)

theorem retryAux_delays_shape {T : Type} (op : Nat → Except String T)
    (validator : Option (T → Bool)) (rand : Nat → ℚ) (baseDelay : ℚ)
    (maxRetries : Nat) :
    ∀ (f a : Nat) (le : Option String),
      (retryAux op validator rand baseDelay maxRetries a f le).delays =
        (List.range
            ((retryAux op validator rand baseDelay maxRetries a f le).invocations - 1)).map
          (fun i => baseDelay * 2 ^ (a + i) + rand (a + i) * 1000) ∧
      (retryAux op validator rand baseDelay maxRetries a f le).invocations ≤ f := by
  intro f
  induction f with
  | zero =>
    intro a le
    simp [retryAux]
  | succ f2 ih =>
    intro a le
    cases hcase : attemptOnce op validator a with
    | ok v => simp [retryAux, hcase]
    | error e =>
      by_cases hf2 : f2 = 0
      · subst hf2
        simp [retryAux, hcase]
      · obtain ⟨hd, hinv⟩ := ih (a + 1) (some e)
        have hpos : 1 ≤ (retryAux op validator rand baseDelay maxRetries
            (a + 1) f2 (some e)).invocations :=
          retryAux_inv_pos op validator rand baseDelay maxRetries (a + 1) f2
            (some e) (by omega)
        simp only [retryAux, hcase]
        rw [if_neg hf2]
        constructor
        · rw [hd]
          rw [show (retryAux op validator rand baseDelay maxRetries (a + 1) f2
              (some e)).invocations + 1 - 1 =
            ((retryAux op validator rand baseDelay maxRetries (a + 1) f2
              (some e)).invocations - 1) + 1 from by omega]
          exact cons_map_range (fun i => baseDelay * 2 ^ i + rand i * 1000) a _
        · show (retryAux op validator rand baseDelay maxRetries (a + 1) f2
            (some e)).invocations + 1 ≤ f2 + 1
          omega

/-! ## Claim theorems: retry orchestrator -/

/-- C2: an operation that fails (throws or is rejected by the validator) on
its first k invocations and succeeds on invocation k+1, run with
maxAttempts greater than k, yields the success value with the operation
invoked exactly k+1 times; the defaulted call (attempt budget 5) does the
same whenever k is below 5. -/
theorem claim_C2_eventual_success {T : Type} (op : Nat → Except String T)
    (validator : Option (T → Bool)) (rand : Nat → ℚ) (baseDelay : ℚ)
    (maxRetries k : Nat) (v : T)
    (hk : k < maxRetries)
    (hfail : ∀ i, i < k → ∃ e, attemptOnce op validator i = Except.error e)
    (hsucc : attemptOnce op validator k = Except.ok v) :
    (retryWithBackoff op maxRetries baseDelay validator rand).result = Except.ok v ∧
    (retryWithBackoff op maxRetries baseDelay validator rand).invocations = k + 1 ∧
    (k < 5 →
      (retryWithBackoffDefault op validator rand).result = Except.ok v ∧
      (retryWithBackoffDefault op validator rand).invocations = k + 1) := by
  have h := retryAux_ok op validator rand baseDelay maxRetries v k 0 maxRetries none hk
    (fun i hi => by
      rw [Nat.zero_add]
      exact hfail i hi)
    (by
      rw [Nat.zero_add]
      exact hsucc)
  have h5 : ∀ hk5 : k < 5,
      retryAux op validator rand 1000 5 0 5 none =
        { result := Except.ok v, invocations := k + 1,
          delays := (List.range k).map
            (fun i => 1000 * 2 ^ (0 + i) + rand (0 + i) * 1000) } :=
    fun hk5 => retryAux_ok op validator rand 1000 5 v k 0 5 none hk5
      (fun i hi => by
        rw [Nat.zero_add]
        exact hfail i hi)
      (by
        rw [Nat.zero_add]
        exact hsucc)
  refine ⟨?_, ?_, ?_⟩
  · show (retryAux op validator rand baseDelay maxRetries 0 maxRetries none).result = _
    rw [h]
  · show (retryAux op validator rand baseDelay maxRetries 0 maxRetries none).invocations = _
    rw [h]
  · intro hk5
    constructor
    · show (retryAux op validator rand 1000 5 0 5 none).result = _
      rw [h5 hk5]
    · show (retryAux op validator rand 1000 5 0 5 none).invocations = _
      rw [h5 hk5]

/-- C2 witness: an operation failing exactly once then succeeding with 42,
retried with the default budget of 5 attempts. -/
theorem claim_C2_witness :
    (retryWithBackoff (fun i => if i < 1 then Except.error ("boom") else Except.ok 42)
        5 1000 none (fun _ => 0)).result = Except.ok 42 ∧
    (retryWithBackoff (fun i => if i < 1 then Except.error ("boom") else Except.ok 42)
        5 1000 none (fun _ => 0)).invocations = 1 + 1 ∧
    (1 < 5 →
      (retryWithBackoffDefault
          (fun i => if i < 1 then Except.error ("boom") else Except.ok 42)
          none (fun _ => 0)).result = Except.ok 42 ∧
      (retryWithBackoffDefault
          (fun i => if i < 1 then Except.error ("boom") else Except.ok 42)
          none (fun _ => 0)).invocations = 1 + 1) :=
  claim_C2_eventual_success
    (fun i => if i < 1 then Except.error ("boom") else Except.ok 42)
    none (fun _ => 0) 1000 5 1 42 (by omega)
    (fun i hi => ⟨"boom", by
      have hi0 : i = 0 := by omega
      subst hi0
      rfl⟩)
    rfl

/-- C6: an operation failing on every invocation is invoked exactly
maxAttempts times, after which the retry orchestrator fails with an
aggregate error naming the attempt count and the last underlying failure's
message. -/
theorem claim_C6_exhaustion {T : Type} (op : Nat → Except String T)
    (validator : Option (T → Bool)) (rand : Nat → ℚ) (baseDelay : ℚ)
    (maxRetries : Nat) (errf : Nat → String)
    (hpos : 1 ≤ maxRetries)
    (herr : ∀ i, attemptOnce op validator i = Except.error (errf i)) :
    (retryWithBackoff op maxRetries baseDelay validator rand).invocations = maxRetries ∧
    (retryWithBackoff op maxRetries baseDelay validator rand).result =
      Except.error ("Operation failed after " ++ toString maxRetries ++
        " attempts: " ++ errf (maxRetries - 1)) := by
  have h := retryAux_err op validator rand baseDelay maxRetries errf herr
    maxRetries 0 none hpos
  constructor
  · show (retryAux op validator rand baseDelay maxRetries 0 maxRetries none).invocations = _
    rw [h]
  · show (retryAux op validator rand baseDelay maxRetries 0 maxRetries none).result = _
    rw [h]
    simp [exhaustedMsg]

/-- C6 witness: an always-failing operation with message boom and a budget
of 3 attempts. -/
theorem claim_C6_witness :
    (retryWithBackoff (fun _ => (Except.error ("boom") : Except String Nat)) 3 1000 none
        (fun _ => 0)).invocations = 3 ∧
    (retryWithBackoff (fun _ => (Except.error ("boom") : Except String Nat)) 3 1000 none
        (fun _ => 0)).result =
      Except.error ("Operation failed after " ++ toString 3 ++
        " attempts: " ++ (fun _ => "boom") (3 - 1)) :=
  claim_C6_exhaustion (fun _ => (Except.error ("boom") : Except String Nat)) none (fun _ => 0) 1000 3
    (fun _ => "boom") (by omega) (fun i => rfl)

/-- C7: the backoff sleeps of one retry call are exactly one per failed
attempt that had attempts remaining — the sleep after the zero-based
attempt i lasts baseDelay * 2 ^ i plus a jitter rand i * 1000 in the
interval from 0 inclusive to 1000 exclusive — so there is no sleep after
the final failed attempt and the delays grow exponentially with the
attempt index. -/
theorem claim_C7_backoff_delays {T : Type} (op : Nat → Except String T)
    (validator : Option (T → Bool)) (rand : Nat → ℚ) (baseDelay : ℚ)
    (maxRetries : Nat)
    (hr : ∀ i, 0 ≤ rand i ∧ rand i < 1) :
    (retryWithBackoff op maxRetries baseDelay validator rand).delays =
      (List.range
          ((retryWithBackoff op maxRetries baseDelay validator rand).invocations - 1)).map
        (fun i => baseDelay * 2 ^ i + rand i * 1000) ∧
    (retryWithBackoff op maxRetries baseDelay validator rand).delays.length =
      (retryWithBackoff op maxRetries baseDelay validator rand).invocations - 1 ∧
    (retryWithBackoff op maxRetries baseDelay validator rand).delays.length ≤
      maxRetries - 1 ∧
    (∀ i, 0 ≤ rand i * 1000 ∧ rand i * 1000 < 1000) := by
  obtain ⟨hd, hinv⟩ := retryAux_delays_shape op validator rand baseDelay maxRetries
    maxRetries 0 none
  have hfun : (fun i => baseDelay * 2 ^ (0 + i) + rand (0 + i) * 1000) =
      fun i => baseDelay * 2 ^ i + rand i * 1000 := by
    funext i
    rw [Nat.zero_add]
  rw [hfun] at hd
  have hlen : (retryWithBackoff op maxRetries baseDelay validator rand).delays.length =
      (retryWithBackoff op maxRetries baseDelay validator rand).invocations - 1 := by
    show (retryAux op validator rand baseDelay maxRetries 0 maxRetries none).delays.length = _
    rw [hd]
    simp [retryWithBackoff]
  refine ⟨hd, hlen, ?_, ?_⟩
  · rw [hlen]
    have : (retryWithBackoff op maxRetries baseDelay validator rand).invocations ≤
        maxRetries := hinv
    omega
  · intro i
    obtain ⟨h0, h1⟩ := hr i
    constructor
    · exact mul_nonneg h0 (by norm_num)
    · have := mul_lt_mul_of_pos_right h1 (by norm_num : (0 : ℚ) < 1000)
      linarith

/-- C7 witness: an always-failing operation with budget 2, base delay 1000
and constant jitter draw one half: one sleep of 1500 milliseconds. -/
theorem claim_C7_witness :
    (retryWithBackoff (fun _ => (Except.error ("boom") : Except String Nat)) 2 1000 none
        (fun _ => (1 / 2 : ℚ))).delays =
      (List.range
          ((retryWithBackoff (fun _ => (Except.error ("boom") : Except String Nat)) 2 1000 none
            (fun _ => (1 / 2 : ℚ))).invocations - 1)).map
        (fun i => 1000 * 2 ^ i + (1 / 2 : ℚ) * 1000) ∧
    (retryWithBackoff (fun _ => (Except.error ("boom") : Except String Nat)) 2 1000 none
        (fun _ => (1 / 2 : ℚ))).delays.length =
      (retryWithBackoff (fun _ => (Except.error ("boom") : Except String Nat)) 2 1000 none
        (fun _ => (1 / 2 : ℚ))).invocations - 1 ∧
    (retryWithBackoff (fun _ => (Except.error ("boom") : Except String Nat)) 2 1000 none
        (fun _ => (1 / 2 : ℚ))).delays.length ≤ 2 - 1 ∧
    (∀ i : Nat, 0 ≤ (1 / 2 : ℚ) * 1000 ∧ (1 / 2 : ℚ) * 1000 < 1000) :=
  claim_C7_backoff_delays (fun _ => (Except.error ("boom") : Except String Nat)) none
    (fun _ => (1 / 2 : ℚ)) 1000 2 (fun _ => ⟨by norm_num, by norm_num⟩)

/-! ## Claim theorems: enrichment orchestrator -/

/-- C3: a failure to read the previous output is caught and downgraded to
the empty diff, and every other error propagated to the orchestrator — a
failing source read, corpus read, similarity lookup, or either final write
(each the surfaced failure of its retried operation) — aborts the run with
exit code 1, which is non-zero. -/
theorem claim_C3_error_policy (env : RunEnv) :
    (∀ e, env.readArticle = Except.error e →
      main env = { result := RunResult.failed 1 e,
                   outputWriteStarted := false, diffWriteStarted := false }) ∧
    (∀ a e, env.readArticle = Except.ok a →
      env.readPreviousArticles = Except.error e →
      main env = { result := RunResult.failed 1 e,
                   outputWriteStarted := false, diffWriteStarted := false }) ∧
    (∀ a p e, env.readArticle = Except.ok a →
      env.readPreviousArticles = Except.ok p → env.findSimilar = Except.error e →
      main env = { result := RunResult.failed 1 e,
                   outputWriteStarted := false, diffWriteStarted := false }) ∧
    (∀ a p s e, env.readArticle = Except.ok a →
      env.readPreviousArticles = Except.ok p → env.findSimilar = Except.ok s →
      env.readPriorOutput = Except.error e → env.writeOutput = Except.ok () →
      env.writeDiff = Except.ok () →
      (main env).result = RunResult.success (enrichFromAnalysis a s) emptyDiff) ∧
    (∀ a p s e, env.readArticle = Except.ok a →
      env.readPreviousArticles = Except.ok p → env.findSimilar = Except.ok s →
      (env.writeOutput = Except.error e ∨ env.writeDiff = Except.error e) →
      ∃ e2, (main env).result = RunResult.failed 1 e2) ∧
    (∀ code err, (main env).result = RunResult.failed code err → code ≠ 0) := by
  obtain ⟨ra, rp, fs, rpo, wo, wd, osf⟩ := env
  refine ⟨?_, ?_, ?_, ?_, ?_, ?_⟩
  · intro e h
    simp only at h
    subst h
    rfl
  · intro a e h1 h2
    simp only at h1 h2
    subst h1
    subst h2
    rfl
  · intro a p e h1 h2 h3
    simp only at h1 h2 h3
    subst h1
    subst h2
    subst h3
    rfl
  · intro a p s e h1 h2 h3 h4 h5 h6
    simp only at h1 h2 h3 h4 h5 h6
    subst h1
    subst h2
    subst h3
    subst h4
    subst h5
    subst h6
    rfl
  · intro a p s e h1 h2 h3 hor
    simp only at h1 h2 h3
    subst h1
    subst h2
    subst h3
    cases hor with
    | inl h =>
      simp only at h
      subst h
      cases wd with
      | ok u =>
        cases u
        exact ⟨e, rfl⟩
      | error e2 => exact ⟨if osf then e else e2, rfl⟩
    | inr h =>
      simp only at h
      subst h
      cases wo with
      | ok u =>
        cases u
        exact ⟨e, rfl⟩
      | error e2 => exact ⟨if osf then e2 else e, rfl⟩
  · intro code err h
    cases ra with
    | error e =>
      simp [main] at h
      omega
    | ok a =>
      cases rp with
      | error e =>
        simp [main] at h
        omega
      | ok p =>
        cases fs with
        | error e =>
          simp [main] at h
          omega
        | ok s =>
          cases wo with
          | error eo =>
            cases wd with
            | error ed =>
              simp [main, promiseAllPair] at h
              omega
            | ok u =>
              simp [main, promiseAllPair] at h
              omega
          | ok u =>
            cases wd with
            | error ed =>
              simp [main, promiseAllPair] at h
              omega
            | ok u2 => simp [main, promiseAllPair] at h

/-- C3 witness: a failing source-article read aborts the run with exit
code 1 before any write is started. -/
theorem claim_C3_witness :
    main { readArticle := Except.error ("no article"),
           readPreviousArticles := Except.ok [],
           findSimilar := Except.ok { title := none, reason := "r" },
           readPriorOutput := Except.error ("absent"),
           writeOutput := Except.ok (), writeDiff := Except.ok (),
           outputSettlesFirst := true } =
      { result := RunResult.failed 1 ("no article"), outputWriteStarted := false,
        diffWriteStarted := false } :=
  (claim_C3_error_policy _).1 ("no article") rfl

/-- C4 counterexample: with the output write failing and settling first,
two runs that differ only in the diff write's outcome — success in one,
failure in the other — produce identical run outcomes, because the
`Promise.all` await is fail-fast: the diff write's outcome is not observed
in the run result, refuting the claim that both outcomes are observed. -/
theorem claim_C4_counterexample :
    main { readArticle := Except.ok
             { title := "T", summary := "S", category := "C", takeaways := [] },
           readPreviousArticles := Except.ok [],
           findSimilar := Except.ok { title := none, reason := "r" },
           readPriorOutput := Except.error ("absent"),
           writeOutput := Except.error ("output boom"),
           writeDiff := Except.ok (),
           outputSettlesFirst := true } =
      main { readArticle := Except.ok
               { title := "T", summary := "S", category := "C", takeaways := [] },
             readPreviousArticles := Except.ok [],
             findSimilar := Except.ok { title := none, reason := "r" },
             readPriorOutput := Except.error ("absent"),
             writeOutput := Except.error ("output boom"),
             writeDiff := Except.error ("diff boom"),
             outputSettlesFirst := true } ∧
    (Except.ok () : Except String Unit) ≠ Except.error ("diff boom") := by
  constructor
  · rfl
  · simp

/-- C4 (amended): once the run reaches the write phase, the output write
and the diff write are both started, whatever either write's own outcome;
the run succeeds iff both writes succeed, and if either write fails after
exhausting its own retries the run fails overall with exit code 1.
However, the combined await is fail-fast: the reported failure is the
first-settling rejection alone, and the other write's outcome is not
reflected in the run result. -/
theorem claim_C4_amended (env : RunEnv) (a : Article) (p : List Article)
    (s : SimilarityAnalysis)
    (h1 : env.readArticle = Except.ok a)
    (h2 : env.readPreviousArticles = Except.ok p)
    (h3 : env.findSimilar = Except.ok s) :
    (main env).outputWriteStarted = true ∧
    (main env).diffWriteStarted = true ∧
    ((∃ o d, (main env).result = RunResult.success o d) ↔
      (env.writeOutput = Except.ok () ∧ env.writeDiff = Except.ok ())) ∧
    (∀ e, env.writeOutput = Except.error e ∨ env.writeDiff = Except.error e →
      ∃ e2, (main env).result = RunResult.failed 1 e2) := by
  obtain ⟨ra, rp, fs, rpo, wo, wd, osf⟩ := env
  simp only at h1 h2 h3
  subst h1
  subst h2
  subst h3
  cases wo with
  | ok u =>
    cases u
    cases wd with
    | ok u2 =>
      cases u2
      refine ⟨rfl, rfl, ?_, ?_⟩
      · constructor
        · intro _
          exact ⟨rfl, rfl⟩
        · intro _
          exact ⟨_, _, rfl⟩
      · intro e hor
        cases hor with
        | inl h => simp at h
        | inr h => simp at h
    | error ed =>
      refine ⟨rfl, rfl, ?_, fun e hor => ⟨ed, rfl⟩⟩
      constructor
      · rintro ⟨o, d, h⟩
        simp [main, promiseAllPair] at h
      · rintro ⟨-, h⟩
        simp at h
  | error eo =>
    cases wd with
    | ok u =>
      cases u
      refine ⟨rfl, rfl, ?_, fun e hor => ⟨eo, rfl⟩⟩
      constructor
      · rintro ⟨o, d, h⟩
        simp [main, promiseAllPair] at h
      · rintro ⟨h, -⟩
        simp at h
    | error ed =>
      refine ⟨rfl, rfl, ?_, fun e hor => ⟨if osf then eo else ed, rfl⟩⟩
      constructor
      · rintro ⟨o, d, h⟩
        simp [main, promiseAllPair] at h
      · rintro ⟨h, -⟩
        simp at h

/-- C4 witness: the amended statement evaluated at a run whose prior steps
succeed, with both writes succeeding. -/
theorem claim_C4_witness :
    let env : RunEnv :=
      { readArticle := Except.ok
          { title := "T", summary := "S", category := "C", takeaways := [] },
        readPreviousArticles := Except.ok [],
        findSimilar := Except.ok { title := none, reason := "r" },
        readPriorOutput := Except.error ("absent"),
        writeOutput := Except.ok (), writeDiff := Except.ok (),
        outputSettlesFirst := true }
    (main env).outputWriteStarted = true ∧
    (main env).diffWriteStarted = true ∧
    ((∃ o d, (main env).result = RunResult.success o d) ↔
      (env.writeOutput = Except.ok () ∧ env.writeDiff = Except.ok ())) ∧
    (∀ e, env.writeOutput = Except.error e ∨ env.writeDiff = Except.error e →
      ∃ e2, (main env).result = RunResult.failed 1 e2) :=
  claim_C4_amended
    { readArticle := Except.ok
        { title := "T", summary := "S", category := "C", takeaways := [] },
      readPreviousArticles := Except.ok [],
      findSimilar := Except.ok { title := none, reason := "r" },
      readPriorOutput := Except.error ("absent"),
      writeOutput := Except.ok (), writeDiff := Except.ok (),
      outputSettlesFirst := true }
    { title := "T", summary := "S", category := "C", takeaways := [] } []
    { title := none, reason := "r" } rfl rfl rfl

end Similytics
